import Mathlib

/-!
Verification of the daily-weather ingestion pipeline
(`daily_weather/main.py` and its test file), as a shallow embedding.

Conventions of the embedding:
* JSON numbers are modelled as `ℚ` (the code performs no arithmetic on
  them, only moves them around, so exact rationals are faithful).
* The network is a parameter: a geocoding call is a `GeoResponse` value,
  a weather call is a function from coordinates to `Option WeatherResp`
  (`none` models a `requests.exceptions.RequestException`, which
  `get_current_weather` catches, prints, and turns into Python `None`).
* Python exceptions that the code does NOT catch are modelled with
  explicit error constructors / `Except.error`, so that "an exception
  escapes" is visible in the result type.
* The snapshot directory is an association list from paths to payloads;
  opening a file with mode "w" overwrites, which `fsWrite` models by
  replacing any entry at the same path.
* The two DuckDB tables are lists of rows (INSERT appends); the SQL of
  `load_data_to_current_weather` / `load_data_to_location` is transcribed
  row-operation by row-operation.
-/

namespace DailyWeather

/-- `to_timestamp(e)` in the DuckDB SQL: converts an integer epoch into a
timestamp value.  Modelled as a tagged epoch so that timestamp columns are
a distinct type from raw integers. -/
structure Timestamp where
  epoch : Int
deriving DecidableEq, Repr

/-- `to_timestamp` of the SQL. -/
def to_timestamp (e : Int) : Timestamp := ⟨e⟩

/-- The shape of the OpenWeather current-conditions JSON body that
`main.py` reads: top-level `id`, `name`, `dt`, nested `sys`, `coord`,
`weather[0]` (written `weather[1]` in the 1-indexed DuckDB SQL), `main`,
`wind`, `clouds`.  Field `x_y` stands for the JSON path `x.y`. -/
structure WeatherResp where
  id : Int
  name : String
  sys_country : String
  sys_sunrise : Int
  sys_sunset : Int
  coord_lon : ℚ
  coord_lat : ℚ
  weather0_main : String
  weather0_description : String
  dt : Int
  main_temp : ℚ
  main_feels_like : ℚ
  main_temp_min : ℚ
  main_temp_max : ℚ
  main_pressure : ℚ
  main_humidity : ℚ
  wind_speed : ℚ
  wind_deg : ℚ
  clouds_all : ℚ
deriving DecidableEq, Repr

/-- One row of the `current_weather` table, column for column the SELECT
list of `load_data_to_current_weather`. -/
structure ObservationRow where
  location_id : Int
  location_name : String
  location_country : String
  sunrise : Timestamp
  sunset : Timestamp
  location_lon : ℚ
  location_lat : ℚ
  weather_main : String
  weather_description : String
  timestamp_local : Timestamp
  temperature : ℚ
  temperature_feels_like : ℚ
  temperature_min : ℚ
  temperature_max : ℚ
  pressure : ℚ
  humidity : ℚ
  wind_speed : ℚ
  wind_degrees : ℚ
  clouds : ℚ
deriving DecidableEq, Repr

/-- One row of the `location` table. -/
structure LocationRow where
  id : Int
  name : String
  country : String
  lon : ℚ
  lat : ℚ
deriving DecidableEq, Repr

/-- A geocoding HTTP response: its status code and the `lat` / `lon`
fields of its JSON body (`none` = field absent from the body). -/
structure GeoResponse where
  status : Nat
  lat : Option ℚ
  lon : Option ℚ
deriving DecidableEq, Repr

/-- A 2xx HTTP status — the scope in which the spec states the geocoder's
success contract. -/
def is2xx (status : Nat) : Bool := 200 ≤ status && status < 300

/-- `response.raise_for_status()` raising: the requests library raises
`HTTPError` exactly for the client- and server-error statuses 400–599.
A terminal 1xx/2xx/3xx response does not raise, and the code proceeds to
the JSON field lookups. -/
def raises_http_error (status : Nat) : Bool := 400 ≤ status && status < 600

/-- Outcome of `get_coordinates_by_zip`, seen from its caller. -/
inductive GeoResult
  /-- the function returns the tuple `(data["lat"], data["lon"])` -/
  | ok (lat lon : ℚ)
  /-- a `RequestException` was caught and printed; the function returns
  Python `None` -/
  | lookupFailed
  /-- `data["lat"]` or `data["lon"]` raised `KeyError`, which the
  `except requests.exceptions.RequestException` clause does not catch:
  the exception escapes to the caller -/
  | keyErrorRaised
deriving DecidableEq, Repr

/-- The zip-code defaulting at the top of `get_coordinates_by_zip`:
`if zip_code is None: zip_code = "85374"`. -/
def effective_zip : Option String → String
  | none => "85374"
  | some z => z

/-- `get_coordinates_by_zip`, given the geocoding response the network
produced for the requested zip code.  `raise_for_status` raises
`HTTPError` for a 4xx/5xx status and the `try`/`except` turns that into
`None`; on any response it lets pass, the function returns
`(data["lat"], data["lon"])`, and a missing field raises `KeyError`,
which nothing in the function catches. -/
def get_coordinates_by_zip (resp : GeoResponse) : GeoResult :=
  if raises_http_error resp.status then
    .lookupFailed
  else
    match resp.lat, resp.lon with
    | some la, some lo => .ok la lo
    | _, _ => .keyErrorRaised

/-! ## Snapshot writer (`write_result_to_json`) -/

/-- The value of `datetime.now()` as far as the `"%Y%m%d%H%M"` format
string reads it (plus the seconds, which the format string drops). -/
structure PyTime where
  year : Nat
  month : Nat
  day : Nat
  hour : Nat
  minute : Nat
  second : Nat
deriving DecidableEq, Repr

/-- Zero-pad to two digits, as `%m`, `%d`, `%H`, `%M` do. -/
def pad2 (n : Nat) : String :=
  if n < 10 then "0" ++ toString n else toString n

/-- Zero-pad to four digits, as `%Y` does. -/
def pad4 (n : Nat) : String :=
  (if n < 10 then "000" else if n < 100 then "00" else
    if n < 1000 then "0" else "") ++ toString n

/-- `datetime.now().strftime("%Y%m%d%H%M")`: minute granularity, the
seconds are dropped. -/
def strftime_minute (t : PyTime) : String :=
  pad4 t.year ++ pad2 t.month ++ pad2 t.day ++ pad2 t.hour ++ pad2 t.minute

/-- Truncation of a time to minute granularity. -/
def minute_trunc (t : PyTime) : PyTime := { t with second := 0 }

/-- `f"{result['id']}_{time_str}.json"`. -/
def snapshot_filename (id : Int) (t : PyTime) : String :=
  toString id ++ "_" ++ strftime_minute t ++ ".json"

/-- `JSON_DIR` of `main.py`. -/
def JSON_DIR : String := "data/json"

/-- `os.path.join(JSON_DIR, filename)`. -/
def snapshot_path (id : Int) (t : PyTime) : String :=
  JSON_DIR ++ "/" ++ snapshot_filename id t

/-- The snapshot directory: an association list from file paths to the
JSON payloads stored there. -/
def FS := List (String × WeatherResp)

instance : DecidableEq FS := by
  unfold FS
  infer_instance

/-- `open(file_path, "w")` followed by `json.dump`: creates the file, or
truncates and overwrites whatever was at that path before. -/
def fsWrite (fs : FS) (path : String) (r : WeatherResp) : FS :=
  (path, r) :: List.filter (fun e => e.1 ≠ path) fs

/-- Reading the JSON file at `path` (what `FROM '{json_file}'` does in the
loader); `none` models a missing or malformed file. -/
def fsRead (fs : FS) (path : String) : Option WeatherResp :=
  (List.find? (fun e => e.1 = path) fs).map Prod.snd

/-- `write_result_to_json(result)`.  The argument is the value returned by
`get_current_weather`, hence an `Option`: on Python `None` the very first
use, `result['id']`, raises `TypeError` (`'NoneType' object is not
subscriptable`), which the function does not catch — modelled as
`Except.error ()`.  Otherwise the payload is serialized verbatim to
`snapshot_path` and the path is returned. -/
def write_result_to_json (fs : FS) (result : Option WeatherResp)
    (now : PyTime) : Except Unit (FS × String) :=
  match result with
  | none => .error ()
  | some r =>
      let p := snapshot_path r.id now
      .ok (fsWrite fs p r, p)

/-! ## Relational loader -/

/-- The SELECT list of `load_data_to_current_weather`, projecting one
snapshot payload into one `current_weather` row.  Note the `sunset`
column: the SQL reads `to_timestamp(sys.sunrise) AS sunset`, i.e. the
sunrise epoch, not `sys.sunset`. -/
def snapshot_to_row (w : WeatherResp) : ObservationRow where
  location_id := w.id
  location_name := w.name
  location_country := w.sys_country
  sunrise := to_timestamp w.sys_sunrise
  sunset := to_timestamp w.sys_sunrise
  location_lon := w.coord_lon
  location_lat := w.coord_lat
  weather_main := w.weather0_main
  weather_description := w.weather0_description
  timestamp_local := to_timestamp w.dt
  temperature := w.main_temp
  temperature_feels_like := w.main_feels_like
  temperature_min := w.main_temp_min
  temperature_max := w.main_temp_max
  pressure := w.main_pressure
  humidity := w.main_humidity
  wind_speed := w.wind_speed
  wind_degrees := w.wind_deg
  clouds := w.clouds_all

/-- The two DuckDB tables of `data/weather.db`. -/
structure Database where
  current_weather : List ObservationRow
  location : List LocationRow
deriving DecidableEq, Repr

/-- `load_data_to_current_weather(json_file)` over a database state: reads
the snapshot file and INSERTs the projected row (append).  A missing or
malformed file makes DuckDB raise, which the `except duckdb.Error` clause
catches and prints, leaving the table unchanged. -/
def load_data_to_current_weather (db : Database) (fs : FS)
    (json_file : String) : Database :=
  match fsRead fs json_file with
  | none => db
  | some w => { db with current_weather := db.current_weather ++ [snapshot_to_row w] }

/-- The rows produced by
`SELECT DISTINCT location_id, location_name, location_country,
location_lon, location_lat FROM current_weather cw
ANTI JOIN location l ON l.id = cw.location_id`:
project the observation rows whose `location_id` matches no existing
location id, and deduplicate the projected 5-tuples. -/
def new_location_rows (cw : List ObservationRow)
    (loc : List LocationRow) : List LocationRow :=
  ((cw.filter (fun r => loc.all (fun l => !(l.id == r.location_id)))).map
    (fun r => LocationRow.mk r.location_id r.location_name
      r.location_country r.location_lon r.location_lat)).dedup

/-- `load_data_to_location()`: INSERT (append) the anti-join result into
the `location` table. -/
def load_data_to_location (cw : List ObservationRow)
    (loc : List LocationRow) : List LocationRow :=
  loc ++ new_location_rows cw loc

/-! ## Refresh flow (`query_saved_locations`) -/

/-- One saved location as the refresh query returns it:
`SELECT DISTINCT name, lat, lon FROM location`. -/
structure SavedLoc where
  name : String
  lat : ℚ
  lon : ℚ
deriving DecidableEq, Repr

/-- The result set of `SELECT DISTINCT name, lat, lon FROM location`, in
table order. -/
def saved_locations (db : Database) : List SavedLoc :=
  (db.location.map (fun l => SavedLoc.mk l.name l.lat l.lon)).dedup

/-- The weather network: what `requests.get` on the current-weather
endpoint yields for given coordinates.  `none` is a transport/HTTP error
(a `RequestException`). -/
def Net := ℚ × ℚ → Option WeatherResp

/-- `get_current_weather(lat, lon)`: the `try`/`except` catches any
`RequestException`, prints, and returns Python `None`; otherwise the
parsed JSON body is returned. -/
def get_current_weather (net : Net) (lat lon : ℚ) : Option WeatherResp :=
  net (lat, lon)

/-- Snapshot directory plus database: the mutable state the flows act
on. -/
structure RunState where
  fs : FS
  db : Database
deriving DecidableEq

/-- The body of the `for loc in con.fetchall()` loop of
`query_saved_locations`, iterated over the remaining locations.
`Except.error st` means an exception other than `duckdb.Error` escaped
the loop (the surrounding `try` only catches `duckdb.Error`), with `st`
the state at that moment; concretely, when `get_current_weather` returns
`None`, `write_result_to_json(None)` raises `TypeError`, which nothing
catches. -/
def refresh_loop (net : Net) (now : PyTime) :
    List SavedLoc → RunState → Except RunState RunState
  | [], st => .ok st
  | l :: rest, st =>
      match write_result_to_json st.fs (get_current_weather net l.lat l.lon) now with
      | .error () => .error st
      | .ok (fs1, json_file) =>
          let db1 := load_data_to_current_weather st.db fs1 json_file
          refresh_loop net now rest ⟨fs1, db1⟩

/-- `query_saved_locations()`: query the saved locations once, then run
the refresh loop over them. -/
def query_saved_locations (net : Net) (now : PyTime)
    (st : RunState) : Except RunState RunState :=
  refresh_loop net now (saved_locations st.db) st

/-- The state held by a refresh run whether it finished normally or an
exception escaped. -/
def final_state : Except RunState RunState → RunState
  | .ok st => st
  | .error st => st

/-! ## Bootstrap flow (`main`) and the script entry point -/

/-- How an invocation of `main()` ends. -/
inductive MainOutcome
  /-- the whole bootstrap pipeline ran: fetch, snapshot, `create_db`,
  `load_data_to_current_weather`, `load_data_to_location` -/
  | completed
  /-- the `else` branch printed `"Failed to fetch location data."` and
  nothing else ran -/
  | printedFailure
  /-- an uncaught `TypeError` escaped (`lat, lon = None` unpacking, or
  `write_result_to_json(None)`) -/
  | typeErrorRaised
  /-- the `KeyError` from `get_coordinates_by_zip` propagated through
  `main`, which does not catch it -/
  | keyErrorRaised
deriving DecidableEq, Repr

/-- Result of `main()`: its outcome together with the snapshot directory
and database afterwards, and the list of coordinates the weather endpoint
was called with (so "performs no weather fetch" is expressible). -/
structure MainResult where
  outcome : MainOutcome
  fs : FS
  db : Database
  fetch_calls : List (ℚ × ℚ)
deriving DecidableEq

/-- `main()` after argument parsing, given the geocoding response for the
requested zip.  The source does `lat, lon = get_coordinates_by_zip(...)`:
when the geocoder returned Python `None` (its caught-failure value), that
unpacking raises `TypeError` (`cannot unpack non-iterable NoneType`)
before the `if lat:` test is ever reached.  When a pair came back,
`if lat:` tests the truthiness of the latitude (false exactly for `0.0`),
and the `else` branch prints the failure message.  On the truthy branch
the pipeline runs; a fetch failure there hands `None` to
`write_result_to_json`, which raises `TypeError`. -/
def main (geo : GeoResponse) (net : Net) (now : PyTime)
    (st : RunState) : MainResult :=
  match get_coordinates_by_zip geo with
  | .keyErrorRaised => ⟨.keyErrorRaised, st.fs, st.db, []⟩
  | .lookupFailed => ⟨.typeErrorRaised, st.fs, st.db, []⟩
  | .ok la lo =>
      if la ≠ 0 then
        match write_result_to_json st.fs (get_current_weather net la lo) now with
        | .error () => ⟨.typeErrorRaised, st.fs, st.db, [(la, lo)]⟩
        | .ok (fs1, json_file) =>
            let db1 := load_data_to_current_weather st.db fs1 json_file
            ⟨.completed, fs1,
              { db1 with
                location := load_data_to_location db1.current_weather db1.location },
              [(la, lo)]⟩
      else ⟨.printedFailure, st.fs, st.db, []⟩

/-- Which of the two flows a process run executes. -/
inductive Flow
  | bootstrap (zip : String)
  | refresh
deriving DecidableEq, Repr

/-- The `if __name__ == "__main__":` block of `main.py`.  It calls
`query_saved_locations()` directly and unconditionally; `main()` — and
with it the argparse handling of `--zip` — is never invoked when the
module runs as a script, so the command-line zip flag has no effect on
which flow runs. -/
def script_entry (_cli_zip : Option String) : Flow := .refresh

/-! ## Concrete example values -/

/-- A fixed well-formed weather payload (the shape of the mocked payload
of the end-to-end scenario: `id=123456`). -/
def wEx : WeatherResp where
  id := 123456
  name := "Surprise"
  sys_country := "US"
  sys_sunrise := 100
  sys_sunset := 200
  coord_lon := 2
  coord_lat := 2
  weather0_main := "Clear"
  weather0_description := "clear sky"
  dt := 1000
  main_temp := 80
  main_feels_like := 82
  main_temp_min := 70
  main_temp_max := 90
  main_pressure := 1013
  main_humidity := 20
  wind_speed := 5
  wind_deg := 180
  clouds_all := 0

/-- A second payload for the same location, different reading. -/
def wEx2 : WeatherResp := { wEx with main_temp := 81 }

/-- An observation row with the given identifier and name, all other
columns fixed. -/
def obsRow (i : Int) (n : String) : ObservationRow where
  location_id := i
  location_name := n
  location_country := "US"
  sunrise := ⟨100⟩
  sunset := ⟨100⟩
  location_lon := 0
  location_lat := 0
  weather_main := "Clear"
  weather_description := "clear sky"
  timestamp_local := ⟨1000⟩
  temperature := 0
  temperature_feels_like := 0
  temperature_min := 0
  temperature_max := 0
  pressure := 0
  humidity := 0
  wind_speed := 0
  wind_degrees := 0
  clouds := 0

/-- A location row with the given identifier. -/
def locRowEx (i : Int) : LocationRow := ⟨i, "L", "US", 0, 0⟩

/-- A weather network that succeeds (with `wEx`) exactly at coordinates
`(2, 2)` and raises a transport error everywhere else. -/
def netEx : Net := fun c => if c = (2, 2) then some wEx else none

/-- Two saved locations: `Alpha` at `(1, 1)`, whose fetch against `netEx`
fails, then `Beta` at `(2, 2)`, whose fetch succeeds. -/
def dbEx0 : Database :=
  ⟨[], [⟨1, "Alpha", "US", 1, 1⟩, ⟨2, "Beta", "US", 2, 2⟩]⟩

/-- Empty snapshot directory over `dbEx0`. -/
def stEx0 : RunState := ⟨[], dbEx0⟩

/-- A fixed clock value. -/
def nowEx : PyTime := ⟨2026, 1, 2, 3, 4, 5⟩

/-- A clock value 54 seconds after `nowEx`, inside the same minute. -/
def nowEx2 : PyTime := ⟨2026, 1, 2, 3, 4, 59⟩

/-! ## Helper lemmas -/

theorem location_all_ne {loc : List LocationRow} {i : Int} :
    (loc.all (fun l => !(l.id == i)) = true) ↔ ∀ l ∈ loc, l.id ≠ i := by
  simp [List.all_eq_true]

theorem mem_new_location_rows {cw : List ObservationRow} {loc : List LocationRow}
    {t : LocationRow} :
    t ∈ new_location_rows cw loc ↔
      ∃ r ∈ cw, (∀ l ∈ loc, l.id ≠ r.location_id) ∧
        t = LocationRow.mk r.location_id r.location_name r.location_country
              r.location_lon r.location_lat := by
  unfold new_location_rows
  rw [List.mem_dedup]
  simp only [List.mem_map, List.mem_filter, location_all_ne]
  constructor
  · rintro ⟨r, ⟨hr, hne⟩, rfl⟩
    exact ⟨r, hr, hne, rfl⟩
  · rintro ⟨r, hr, hne, rfl⟩
    exact ⟨r, ⟨hr, hne⟩, rfl⟩

/-- After one run of the anti-join insert, every observation's identifier
is present in the location table, so the second run's anti-join result is
empty. -/
theorem new_location_rows_idem (cw : List ObservationRow) (loc : List LocationRow) :
    new_location_rows cw (loc ++ new_location_rows cw loc) = [] := by
  have h : cw.filter
      (fun r => (loc ++ new_location_rows cw loc).all
        (fun l => !(l.id == r.location_id))) = [] := by
    rw [List.filter_eq_nil_iff]
    intro r hr hall
    rw [location_all_ne] at hall
    by_cases hex : ∀ l ∈ loc, l.id ≠ r.location_id
    · have hmem : LocationRow.mk r.location_id r.location_name r.location_country
          r.location_lon r.location_lat ∈ new_location_rows cw loc :=
        mem_new_location_rows.mpr ⟨r, hr, hex, rfl⟩
      exact hall _ (List.mem_append_right _ hmem) rfl
    · push_neg at hex
      obtain ⟨l, hl, he⟩ := hex
      exact hall l (List.mem_append_left _ hl) he
  show (List.map _ (cw.filter _)).dedup = []
  rw [h]
  rfl

theorem load_data_to_location_idem (cw : List ObservationRow) (loc : List LocationRow) :
    load_data_to_location cw (load_data_to_location cw loc)
      = load_data_to_location cw loc := by
  show load_data_to_location cw loc
      ++ new_location_rows cw (loc ++ new_location_rows cw loc)
    = load_data_to_location cw loc
  rw [new_location_rows_idem, List.append_nil]

theorem strftime_minute_trunc (t : PyTime) :
    strftime_minute (minute_trunc t) = strftime_minute t := rfl

/-- Writing twice at the same path leaves what a single write of the
second payload leaves. -/
theorem fsWrite_fsWrite (fs : FS) (p : String) (r1 r2 : WeatherResp) :
    fsWrite (fsWrite fs p r1) p r2 = fsWrite fs p r2 := by
  unfold fsWrite
  rw [List.filter_cons]
  simp [List.filter_filter]

/-- After `fsWrite fs p r`, the path `p` holds exactly the one payload
`r`. -/
theorem filter_fsWrite (fs : FS) (p : String) (r : WeatherResp) :
    List.filter (fun e => e.1 == p) (fsWrite fs p r) = [(p, r)] := by
  unfold fsWrite
  rw [List.filter_cons]
  simp only [beq_self_eq_true, if_pos, List.filter_filter]
  have h : List.filter (fun a => a.1 == p && decide (a.1 ≠ p)) fs = [] := by
    rw [List.filter_eq_nil_iff]
    intro a _
    by_cases h : a.1 = p <;> simp [h]
  rw [h]

theorem load_data_to_current_weather_location (db : Database) (fs : FS) (p : String) :
    (load_data_to_current_weather db fs p).location = db.location := by
  unfold load_data_to_current_weather
  cases fsRead fs p <;> rfl

/-- The refresh loop never touches the `location` table, whether it
finishes or an exception escapes. -/
theorem refresh_loop_location (net : Net) (now : PyTime) :
    ∀ (ls : List SavedLoc) (st : RunState),
      (final_state (refresh_loop net now ls st)).db.location = st.db.location := by
  intro ls
  induction ls with
  | nil => intro st; rfl
  | cons l rest ih =>
      intro st
      show (final_state
        (match write_result_to_json st.fs (get_current_weather net l.lat l.lon) now with
          | .error () => Except.error st
          | .ok (fs1, jf) =>
              refresh_loop net now rest
                ⟨fs1, load_data_to_current_weather st.db fs1 jf⟩)).db.location
        = st.db.location
      cases h : write_result_to_json st.fs (get_current_weather net l.lat l.lon) now with
      | error e => cases e; rfl
      | ok pr =>
          obtain ⟨fs1, jf⟩ := pr
          rw [ih]
          exact load_data_to_current_weather_location st.db fs1 jf

/-! ## Claims -/

/-- C1 (code bug): the claim says a fetch failure for one saved location
is isolated — the loop continues, the succeeding location's row is
inserted, and no exception escapes the batch.  The code instead hands
`get_current_weather`'s `None` to `write_result_to_json`, whose
`result['id']` raises an uncaught `TypeError`: on the two saved locations
of `dbEx0` (the fetch for `Alpha` fails, the one for `Beta` would
succeed), the refresh run ends in an escaped exception and zero new
observation rows, not one. -/
theorem c1_refresh_fetch_failure_aborts_batch :
    query_saved_locations netEx nowEx stEx0 = Except.error stEx0
    ∧ (final_state (query_saved_locations netEx nowEx stEx0)).db.current_weather.length = 0 :=
  ⟨rfl, rfl⟩

/-- C2: for every well-formed snapshot file the loader reads, the inserted
row's `sunrise` AND `sunset` columns are both `to_timestamp` of the
snapshot's `sys.sunrise` epoch; moreover there is a snapshot on which the
`sunset` column differs from `to_timestamp` of the distinct `sys.sunset`
field, so the sunset column really comes from the sunrise value. -/
theorem c2_sunset_column_uses_sunrise_epoch :
    (∀ (db : Database) (fs : FS) (p : String) (w : WeatherResp),
        fsRead fs p = some w →
        (load_data_to_current_weather db fs p).current_weather
            = db.current_weather ++ [snapshot_to_row w]
        ∧ (snapshot_to_row w).sunrise = to_timestamp w.sys_sunrise
        ∧ (snapshot_to_row w).sunset = to_timestamp w.sys_sunrise)
    ∧ ∃ w : WeatherResp, (snapshot_to_row w).sunset ≠ to_timestamp w.sys_sunset := by
  constructor
  · intro db fs p w h
    refine ⟨?_, rfl, rfl⟩
    unfold load_data_to_current_weather
    rw [h]
  · exact ⟨wEx, by decide⟩

/-- Witness for C2 at a concrete snapshot directory holding `wEx`. -/
theorem c2_sunset_column_uses_sunrise_epoch_witness :
    (load_data_to_current_weather ⟨[], []⟩ [("f.json", wEx)] "f.json").current_weather
      = [] ++ [snapshot_to_row wEx] :=
  (c2_sunset_column_uses_sunrise_epoch.1 ⟨[], []⟩ [("f.json", wEx)] "f.json" wEx rfl).1

/-- C3 counterexample: the claim's "each identifier appearing at most
once" fails.  With an empty location table and two distinct observation
tuples sharing `location_id = 1` (names `"A"` and `"B"`), one run of the
anti-join insert puts both tuples into the location table, so identifier
`1` appears twice. -/
theorem c3_counterexample_duplicate_identifier :
    ¬ (((load_data_to_location [obsRow 1 "A", obsRow 1 "B"] []).map
        LocationRow.id).Nodup) := by
  decide

/-- C3 amended: `load_data_to_location` only appends (existing rows are
never updated or removed), it is idempotent for every state of the two
tables, and — provided the initial location identifiers are distinct and
the distinct new tuples it inserts carry distinct identifiers — every
identifier appears at most once afterwards.  (Unconditionally, the code
inserts one row per distinct 5-tuple, so two observation tuples sharing
an identifier defeat uniqueness; see the counterexample.) -/
theorem c3_derive_locations_amended (cw : List ObservationRow) (loc : List LocationRow) :
    (∃ ins, load_data_to_location cw loc = loc ++ ins)
    ∧ load_data_to_location cw (load_data_to_location cw loc)
        = load_data_to_location cw loc
    ∧ ((loc.map LocationRow.id).Nodup →
        ((new_location_rows cw loc).map LocationRow.id).Nodup →
        ((load_data_to_location cw loc).map LocationRow.id).Nodup) := by
  refine ⟨⟨new_location_rows cw loc, rfl⟩, load_data_to_location_idem cw loc, ?_⟩
  intro h1 h2
  show ((loc ++ new_location_rows cw loc).map LocationRow.id).Nodup
  rw [List.map_append, List.nodup_append]
  refine ⟨h1, h2, ?_⟩
  intro a ha hb
  rw [List.mem_map] at ha hb
  obtain ⟨l, hl, rfl⟩ := ha
  obtain ⟨t, ht, he⟩ := hb
  rw [mem_new_location_rows] at ht
  obtain ⟨r, _, hne, rfl⟩ := ht
  exact hne l hl he.symm

/-- Witness for C3's amended uniqueness at a concrete pair of tables. -/
theorem c3_derive_locations_amended_witness :
    ((load_data_to_location [obsRow 1 "A"] [locRowEx 2]).map LocationRow.id).Nodup :=
  (c3_derive_locations_amended [obsRow 1 "A"] [locRowEx 2]).2.2 (by decide) (by decide)

/-- C4 counterexample: the claim fails in both directions.  A 2xx
geocoding response whose body lacks `lat`/`lon` does not yield the
designated failure value — `data["lat"]` raises `KeyError`, which the
`except requests.exceptions.RequestException` clause does not catch, so
an unhandled fault reaches the caller.  And a non-2xx status that
`raise_for_status` does not raise on (requests raises `HTTPError` only
for 400–599; here a terminal 304) with both fields present makes
`resolve` return the coordinate pair, not the failure value. -/
theorem c4_counterexample_missing_field_or_redirect :
    (get_coordinates_by_zip ⟨200, none, none⟩ = GeoResult.keyErrorRaised
      ∧ GeoResult.keyErrorRaised ≠ GeoResult.lookupFailed)
    ∧ (get_coordinates_by_zip ⟨304, some 1, some 2⟩ = GeoResult.ok 1 2
      ∧ is2xx 304 = false
      ∧ GeoResult.ok 1 2 ≠ GeoResult.lookupFailed) :=
  ⟨⟨rfl, by decide⟩, rfl, rfl, by decide⟩

/-- C4 amended: for every 4xx/5xx HTTP status — exactly the statuses for
which `raise_for_status` raises `HTTPError` — `resolve` fails with the
designated failure value (`None` after the caught `RequestException`) and
raises nothing.  For every response `raise_for_status` lets pass
(1xx/2xx/3xx), a missing `lat` or `lon` raises an uncaught `KeyError` to
the caller, and with both fields present the coordinate pair is returned
even on a non-2xx status such as 304. -/
theorem c4_resolve_amended (resp : GeoResponse) :
    (raises_http_error resp.status = true →
        get_coordinates_by_zip resp = .lookupFailed)
    ∧ (raises_http_error resp.status = false →
        (resp.lat = none ∨ resp.lon = none) →
        get_coordinates_by_zip resp = .keyErrorRaised)
    ∧ (raises_http_error resp.status = false →
        ∀ la lo : ℚ, resp.lat = some la → resp.lon = some lo →
        get_coordinates_by_zip resp = .ok la lo) := by
  refine ⟨?_, ?_, ?_⟩
  · intro h
    simp [get_coordinates_by_zip, h]
  · intro h hmiss
    cases hl : resp.lat <;> cases ho : resp.lon <;>
      simp_all [get_coordinates_by_zip]
  · intro h la lo hla hlo
    simp [get_coordinates_by_zip, h, hla, hlo]

/-- Witness for C4's amended claim: a 404 yields the failure value, a 2xx
body without `lat` raises, and a 304 with both fields yields the pair. -/
theorem c4_resolve_amended_witness :
    get_coordinates_by_zip ⟨404, some 1, some 2⟩ = GeoResult.lookupFailed
    ∧ get_coordinates_by_zip ⟨200, none, some 2⟩ = GeoResult.keyErrorRaised
    ∧ get_coordinates_by_zip ⟨304, some 1, some 2⟩ = GeoResult.ok 1 2 :=
  ⟨(c4_resolve_amended ⟨404, some 1, some 2⟩).1 rfl,
   (c4_resolve_amended ⟨200, none, some 2⟩).2.1 rfl (Or.inl rfl),
   (c4_resolve_amended ⟨304, some 1, some 2⟩).2.2 rfl 1 2 rfl rfl⟩

/-- C5 (code bug): when geocoding fails in the bootstrap flow (here a
404, so `get_coordinates_by_zip` returns its failure value), the claim
says the flow prints the user-visible failure message and aborts without
an unhandled crash.  In the code, `lat, lon = None` raises an uncaught
`TypeError` before `if lat:` is reached: the run ends in
`typeErrorRaised`, not `printedFailure` — though indeed before any
weather fetch, snapshot write, or database load. -/
theorem c5_bootstrap_lookup_failure_crashes :
    get_coordinates_by_zip ⟨404, none, none⟩ = GeoResult.lookupFailed
    ∧ main ⟨404, none, none⟩ netEx nowEx stEx0
        = ⟨MainOutcome.typeErrorRaised, stEx0.fs, stEx0.db, []⟩
    ∧ MainOutcome.typeErrorRaised ≠ MainOutcome.printedFailure :=
  ⟨rfl, rfl, by decide⟩

/-- C6 counterexample: running the script with the zip flag present does
not execute the bootstrap flow for that code — the `__main__` block calls
`query_saved_locations()` unconditionally, so the refresh flow runs. -/
theorem c6_counterexample_flag_ignored :
    script_entry (some "85374") = Flow.refresh
    ∧ Flow.refresh ≠ Flow.bootstrap "85374" :=
  ⟨rfl, by decide⟩

/-- C6 amended: the process entry point executes the
refresh-all-saved-locations flow for every command line, flag present or
absent; the bootstrap flow lives in `main`, which the entry block never
calls, and inside the bootstrap flow an absent zip argument is replaced
by the default `"85374"` rather than triggering a refresh. -/
theorem c6_entry_amended :
    (∀ cli : Option String, script_entry cli = Flow.refresh)
    ∧ effective_zip none = "85374"
    ∧ ∀ z : String, effective_zip (some z) = z :=
  ⟨fun _ => rfl, rfl, fun _ => rfl⟩

/-- C7: for every 2xx geocoding response whose body carries `lat` and
`lon`, `get_coordinates_by_zip` returns exactly that pair. -/
theorem c7_resolve_returns_pair (resp : GeoResponse) (la lo : ℚ)
    (h2 : is2xx resp.status = true) (hla : resp.lat = some la)
    (hlo : resp.lon = some lo) :
    get_coordinates_by_zip resp = .ok la lo := by
  have hr : raises_http_error resp.status = false := by
    simp only [is2xx, Bool.and_eq_true, decide_eq_true_eq] at h2
    simp only [raises_http_error, Bool.and_eq_false_iff, decide_eq_false_iff_not]
    omega
  simp [get_coordinates_by_zip, hr, hla, hlo]

/-- Witness for C7 at the spec's example response. -/
theorem c7_resolve_returns_pair_witness :
    get_coordinates_by_zip ⟨200, some (33.63 : ℚ), some (-112.3314 : ℚ)⟩
      = GeoResult.ok 33.63 (-112.3314) :=
  c7_resolve_returns_pair ⟨200, some (33.63 : ℚ), some (-112.3314 : ℚ)⟩
    33.63 (-112.3314) rfl rfl rfl

/-- C8: two snapshot writes for the same location identifier within the
same minute (equal minute-truncations) target the same path; the second
overwrites the first (the result is what a single write of the second
payload gives), and afterwards exactly one file exists at that path,
holding the second payload. -/
theorem c8_same_minute_overwrite (fs : FS) (r1 r2 : WeatherResp) (t1 t2 : PyTime)
    (hid : r1.id = r2.id) (hmin : minute_trunc t1 = minute_trunc t2) :
    ∃ p fs1 fs2,
      write_result_to_json fs (some r1) t1 = .ok (fs1, p)
      ∧ write_result_to_json fs1 (some r2) t2 = .ok (fs2, p)
      ∧ fs2 = fsWrite fs p r2
      ∧ List.filter (fun e => e.1 == p) fs2 = [(p, r2)] := by
  have hstr : strftime_minute t1 = strftime_minute t2 := by
    rw [← strftime_minute_trunc t1, hmin, strftime_minute_trunc]
  have hp : snapshot_path r2.id t2 = snapshot_path r1.id t1 := by
    unfold snapshot_path snapshot_filename
    rw [hid, hstr]
  refine ⟨snapshot_path r1.id t1, fsWrite fs (snapshot_path r1.id t1) r1,
    fsWrite fs (snapshot_path r1.id t1) r2, rfl, ?_, rfl, filter_fsWrite _ _ _⟩
  show Except.ok
      (fsWrite (fsWrite fs (snapshot_path r1.id t1) r1) (snapshot_path r2.id t2) r2,
        snapshot_path r2.id t2) = _
  rw [hp, fsWrite_fsWrite]

/-- Witness for C8: two writes for location `123456`, 54 seconds apart
inside the same minute. -/
theorem c8_same_minute_overwrite_witness :
    ∃ p fs1 fs2,
      write_result_to_json ([] : FS) (some wEx) nowEx = .ok (fs1, p)
      ∧ write_result_to_json fs1 (some wEx2) nowEx2 = .ok (fs2, p)
      ∧ fs2 = fsWrite ([] : FS) p wEx2
      ∧ List.filter (fun e => e.1 == p) fs2 = [(p, wEx2)] :=
  c8_same_minute_overwrite ([] : FS) wEx wEx2 nowEx nowEx2 rfl rfl

/-- C9: when geocoding succeeds with latitude exactly `0`, the truthiness
test `if lat:` sends `main` down the failure branch: it prints the
failure message and performs no weather fetch, no snapshot write and no
database load (state and call list unchanged). -/
theorem c9_zero_latitude_failure_branch (geo : GeoResponse) (net : Net)
    (now : PyTime) (st : RunState) (lo : ℚ)
    (h : get_coordinates_by_zip geo = .ok 0 lo) :
    main geo net now st = ⟨.printedFailure, st.fs, st.db, []⟩ := by
  unfold main
  rw [h]
  simp

/-- Witness for C9 at a 2xx response geocoding to `(0, 10)`. -/
theorem c9_zero_latitude_failure_branch_witness :
    main ⟨200, some 0, some 10⟩ netEx nowEx stEx0
      = ⟨.printedFailure, stEx0.fs, stEx0.db, []⟩ :=
  c9_zero_latitude_failure_branch ⟨200, some 0, some 10⟩ netEx nowEx stEx0 10 rfl

/-- C10: the refresh flow never modifies the `location` table — for every
network behaviour, clock and starting state, the `location` table after
`query_saved_locations` (whether it finished or an exception escaped)
equals the one before. -/
theorem c10_refresh_preserves_location_table (net : Net) (now : PyTime) (st : RunState) :
    (final_state (query_saved_locations net now st)).db.location = st.db.location :=
  refresh_loop_location net now (saved_locations st.db) st

end DailyWeather
